import Mathlib

/-!
Verification development for the MatrixPortal LED photo-frame repository.

The development shallowly embeds the two source files:
* `bmp_convert.py` — the image preparation pipeline (`LEDMatrixConverter`);
* `circuitpy.py`  — the runtime slideshow with adaptive temporal dithering
  (`PhotoDisplay`).

Python floats are modelled by exact rationals (`ℚ`), Python integers by `ℕ`/`ℤ`,
exceptions by `Option`, and the mutable `PhotoDisplay` object by an explicit
state record transformed by pure functions.
-/

namespace MatrixPortal

/-- The three dithering profiles returned by `PhotoDisplay.analyze_color_range`
(the strings `'light'`, `'medium'`, `'heavy'` in the source). -/
inductive Pattern where
  | light
  | medium
  | heavy
deriving DecidableEq, Repr

/-- First classification stage of `analyze_color_range` (circuitpy.py lines
211–219): brightness range above 0.6 selects `light`, below 0.25 selects
`heavy`, otherwise `medium`. -/
def contrastRule (brightness_range : ℚ) : Pattern :=
  if 3/5 < brightness_range then .light
  else if brightness_range < 1/4 then .heavy
  else .medium

/-- Second stage (lines 222–227): `if color_usage_ratio < 0.15 and pattern !=
'heavy'` forces `heavy`, `elif color_usage_ratio > 0.4 and pattern != 'light'`
forces `light`, otherwise the pattern is kept. -/
def usageRule (color_usage : ℚ) (p : Pattern) : Pattern :=
  if color_usage < 3/20 ∧ p ≠ .heavy then .heavy
  else if 2/5 < color_usage ∧ p ≠ .light then .light
  else p

/-- Third stage (lines 230–235): fewer than 20 unique colors forces `heavy`,
`elif` more than 100 forces `light`. -/
def uniqueRule (unique_colors : ℕ) (p : Pattern) : Pattern :=
  if unique_colors < 20 then .heavy
  else if 100 < unique_colors then .light
  else p

/-- The pattern selection of `analyze_color_range` as a pure function of the
three sample statistics (circuitpy.py lines 210–238). -/
def selectPattern (brightness_range color_usage : ℚ) (unique_colors : ℕ) :
    Pattern :=
  uniqueRule unique_colors (usageRule color_usage (contrastRule brightness_range))

/-- The specification's priority-ordered classification rules (§4.5 of the
spec), written exactly as stated there: rule 1 on brightness range, then rule 2
on the colour-usage ratio overrides it, then rule 3 on the number of distinct
indices overrides both. -/
def specClassification (brightness_range color_usage : ℚ)
    (unique_colors : ℕ) : Pattern :=
  let s1 := if 3/5 < brightness_range then Pattern.light
    else if brightness_range < 1/4 then Pattern.heavy
    else Pattern.medium
  let s2 := if color_usage < 3/20 then Pattern.heavy
    else if 2/5 < color_usage then Pattern.light
    else s1
  if unique_colors < 20 then Pattern.heavy
  else if 100 < unique_colors then Pattern.light
  else s2

/-- An indexed bitmap as `adafruit_imageload` produces it: a `width × height`
grid of palette indices, read through `bitmap[x, y]`. -/
structure Bitmap where
  width : ℕ
  height : ℕ
  pixel : ℕ → ℕ → ℕ

/-- A CircuitPython `displayio.Palette`: an ordered table of 24-bit
`0xRRGGBB` colours, indexed from 0. -/
abbrev Palette : Type := List ℕ

/-- `range(0, stop, step)` from Python, for `step ≥ 1`. -/
def rangeStep (stop step : ℕ) : List ℕ :=
  (List.range ((stop + step - 1) / step)).map (· * step)

/-- Red channel `(color >> 16) & 0xFF`. -/
def channelR (c : ℕ) : ℕ := (c >>> 16) &&& 0xFF

/-- Green channel `(color >> 8) & 0xFF`. -/
def channelG (c : ℕ) : ℕ := (c >>> 8) &&& 0xFF

/-- Blue channel `color & 0xFF`. -/
def channelB (c : ℕ) : ℕ := c &&& 0xFF

/-- Perceived brightness of a palette colour (circuitpy.py lines 175–178):
`(0.299*r + 0.587*g + 0.114*b) / 255.0`. -/
def luminance (c : ℕ) : ℚ :=
  (299/1000 * channelR c + 587/1000 * channelG c + 114/1000 * channelB c) / 255

/-- `int(sample_size ** 0.5)`: the integer part of the square root, written
as the largest `r ≤ n` with `r * r ≤ n` so that it evaluates by kernel
reduction. -/
def intSqrt (n : ℕ) : ℕ :=
  ((List.range (n + 1)).filter fun r => r * r ≤ n).foldr max 0

/-- The sampling grid of `analyze_color_range` (lines 148–161): steps
`max(1, width // int(sample_size ** 0.5))` in each axis, pixels visited with
`for y in range(0, height, step_y): for x in range(0, width, step_x)`. -/
def samplePoints (bm : Bitmap) (sample_size : ℕ) : List (ℕ × ℕ) :=
  let step_x := max 1 (bm.width / intSqrt sample_size)
  let step_y := max 1 (bm.height / intSqrt sample_size)
  (rangeStep bm.height step_y).flatMap fun y =>
    (rangeStep bm.width step_x).map fun x => (x, y)

/-- The palette indices of the sampled pixels, in visiting order. -/
def sampledIndices (bm : Bitmap) (sample_size : ℕ) : List ℕ :=
  (samplePoints bm sample_size).map fun p => bm.pixel p.1 p.2

/-- Loop state of the sampling loop in `analyze_color_range`:
`color_frequencies` (a dict from palette index to count),
`palette_colors_found` (a set of indices), and `brightness_values`. -/
structure AnalyzeAcc where
  color_frequencies : List (ℕ × ℕ)
  palette_colors_found : List ℕ
  brightness_values : List ℚ

/-- `color_frequencies[i] = color_frequencies.get(i, 0) + 1`: bump the count
stored under key `i`, appending a fresh entry when the key is new. -/
def bumpCount (i : ℕ) : List (ℕ × ℕ) → List (ℕ × ℕ)
  | [] => [(i, 1)]
  | (j, c) :: rest =>
      if i = j then (j, c + 1) :: rest else (j, c) :: bumpCount i rest

/-- One iteration of the sampling loop (lines 162–186) on the index of the
sampled pixel: record its frequency and membership, then append its luminance
when the palette lookup succeeds (`palette[pixel_index]` raises on an
out-of-range index and the loop continues). -/
def analyzeStep (pal : Palette) (acc : AnalyzeAcc) (idx : ℕ) : AnalyzeAcc :=
  { color_frequencies := bumpCount idx acc.color_frequencies
    palette_colors_found := acc.palette_colors_found.insert idx
    brightness_values :=
      if idx < pal.length then
        acc.brightness_values ++ [luminance (pal.getD idx 0)]
      else acc.brightness_values }

/-- The whole sampling loop of `analyze_color_range`. -/
def analyzeLoop (bm : Bitmap) (pal : Palette) (sample_size : ℕ) : AnalyzeAcc :=
  (sampledIndices bm sample_size).foldl (analyzeStep pal) ⟨[], [], []⟩

/-- `unique_colors = len(color_frequencies)` (line 201). -/
def uniqueColors (bm : Bitmap) (pal : Palette) (sample_size : ℕ := 100) : ℕ :=
  (analyzeLoop bm pal sample_size).color_frequencies.length

/-- `max_palette_index = max(palette_colors_found) if palette_colors_found
else 0` (line 202). -/
def maxPaletteIndex (bm : Bitmap) (pal : Palette) (sample_size : ℕ := 100) : ℕ :=
  (analyzeLoop bm pal sample_size).palette_colors_found.foldr max 0

/-- `estimated_palette_size = min(256, max_palette_index + 50)` (line 205). -/
def estimatedPaletteSize (bm : Bitmap) (pal : Palette)
    (sample_size : ℕ := 100) : ℕ :=
  min 256 (maxPaletteIndex bm pal sample_size + 50)

/-- `color_usage_ratio = unique_colors / estimated_palette_size if
estimated_palette_size > 0 else 0` (line 206); the statistic the source calls
`color_usage_ratio`. -/
def colorUsageStat (bm : Bitmap) (pal : Palette) (sample_size : ℕ := 100) : ℚ :=
  if 0 < estimatedPaletteSize bm pal sample_size then
    (uniqueColors bm pal sample_size : ℚ) /
      (estimatedPaletteSize bm pal sample_size : ℚ)
  else 0

/-- `brightness_range = max(brightness_values) - min(brightness_values)`
(lines 195–197), with the empty case handled separately by the caller. -/
def brightnessRange (l : List ℚ) : ℚ :=
  match l with
  | [] => 0
  | x :: xs => xs.foldl max x - xs.foldl min x

/-- `PhotoDisplay.analyze_color_range` (circuitpy.py lines 124–242).  An empty
palette makes the initial `palette[0]` probe raise, and an empty sample set
leaves `brightness_values` empty; both cases return `'medium'`. -/
def analyze_color_range (bm : Bitmap) (pal : Palette)
    (sample_size : ℕ := 100) : Pattern :=
  if pal.length = 0 then .medium
  else
    let acc := analyzeLoop bm pal sample_size
    if acc.brightness_values.isEmpty then .medium
    else
      selectPattern (brightnessRange acc.brightness_values)
        (colorUsageStat bm pal sample_size) acc.color_frequencies.length

/-- `self.dither_patterns` (circuitpy.py lines 60–66): for each profile, which
brightness offset each of the four frames uses (`1` ↦ `true`). -/
def dither_patterns : Pattern → List Bool
  | .light => [false, true, false, true]
  | .medium => [false, false, false, true]
  | .heavy => [false, true, true, true]

/-- `pattern[frame]` for a frame counter already reduced modulo 4. -/
def patternBit (p : Pattern) (frame : ℕ) : Bool :=
  (dither_patterns p).getD frame false

/-- The per-profile offset magnitude of `create_dithered_palette` (lines
501–506): `light` scales by 3, `heavy` by 12, `medium` by 6. -/
def ditherScale : Pattern → ℤ
  | .light => 3
  | .heavy => 12
  | .medium => 6

/-- `max(0, min(255, v))`, the channel clamp of lines 508–510. -/
def clampChannel (v : ℤ) : ℤ := max 0 (min 255 v)

/-- The per-entry body of `create_dithered_palette` (lines 491–512): extract
the RGB channels, add the already-scaled signed offset to each, clamp to
`[0, 255]`, and reassemble `(r << 16) | (g << 8) | b`. -/
def ditherColor (offset : ℤ) (c : ℕ) : ℕ :=
  let r := clampChannel ((channelR c : ℤ) + offset)
  let g := clampChannel ((channelG c : ℤ) + offset)
  let b := clampChannel ((channelB c : ℤ) + offset)
  (r.toNat <<< 16) ||| (g.toNat <<< 8) ||| b.toNat

/-- `PhotoDisplay.create_dithered_palette` (lines 456–524).  The size probe
(lines 471–481) walks indices 0–255 until the first failing access, so at most
256 entries are copied; an empty palette makes the initial `palette[0]` probe
fail and the original palette is returned unchanged. -/
def create_dithered_palette (p : Pattern) (original : Palette)
    (brightness_offset : ℤ) : Palette :=
  if original.length = 0 then original
  else (original.take 256).map (ditherColor (brightness_offset * ditherScale p))

/-- The mutable fields of the `PhotoDisplay` object that the slideshow and the
dither engine touch.  `currentGroup` holds the pixel shader of the single
sprite of the root display group (`current_sprite.pixel_shader`), `none`
standing for `self.current_group is None`. -/
structure PhotoState where
  ditherFrame : ℕ
  currentBitmapData : Option (Bitmap × Palette)
  currentGroup : Option Palette
  currentDitherPattern : Pattern
  currentImageIndex : ℕ
  lastImageTime : Option ℚ
  log : List String

/-- `PhotoDisplay.update_dither_frame` (lines 526–554): a no-op without
adopted bitmap data or a display group; otherwise advance the frame counter
modulo 4, pick the signed unit offset from the current pattern, derive a fresh
palette from the *adopted* palette, and install it as the sprite's pixel
shader (a zero-length derived palette is falsy in Python and is not
installed). -/
def update_dither_frame (s : PhotoState) : PhotoState :=
  match s.currentBitmapData, s.currentGroup with
  | some (_, original_palette), some _ =>
      let frame := (s.ditherFrame + 1) % 4
      let brightness_offset : ℤ :=
        if patternBit s.currentDitherPattern frame then 1 else -1
      let dithered :=
        create_dithered_palette s.currentDitherPattern original_palette
          brightness_offset
      let s' := { s with ditherFrame := frame }
      if dithered.length = 0 then s' else { s' with currentGroup := some dithered }
  | _, _ => s

/-- `PhotoDisplay.display_image_from_data` (lines 378–454) on a successfully
decoded indexed bitmap with a valid palette, with `ENABLE_DITHERING = True`:
analyze the image, adopt the bitmap/palette pair, build a sprite whose pixel
shader is the decoded palette, swap in the new group, and reset the dither
frame counter to 0. -/
def display_image_from_data (s : PhotoState) (bm : Bitmap) (pal : Palette) :
    PhotoState :=
  { s with
    currentDitherPattern := analyze_color_range bm pal
    currentBitmapData := some (bm, pal)
    currentGroup := some pal
    ditherFrame := 0 }

/-- `PhotoDisplay.download_and_display_image` (lines 346–376), with the fetch
and decode collapsed into one outcome: `some (bm, pal)` when the HTTP request
returned status 200 and the payload decoded to an indexed bitmap with a valid
palette, `none` when the request failed, returned a non-200 status, or the
payload could not be decoded.  Every failure path is caught, logged, and
leaves the display state untouched. -/
def download_and_display_image (s : PhotoState)
    (result : Option (Bitmap × Palette)) : PhotoState :=
  match result with
  | some (bm, pal) => display_image_from_data s bm pal
  | none => { s with log := s.log ++ ["Error downloading image"] }

/-- `PhotoDisplay.change_image` (lines 557–575): fetch and display the image
at the current index, then unconditionally advance the index modulo the
length of `IMAGE_URLS` and record `time.monotonic()` in
`self.last_image_time`. -/
def change_image (numUrls : ℕ) (fetch : ℕ → Option (Bitmap × Palette))
    (now : ℚ) (s : PhotoState) : PhotoState :=
  let s1 := download_and_display_image s (fetch s.currentImageIndex)
  { s1 with
    currentImageIndex := (s.currentImageIndex + 1) % numUrls
    lastImageTime := some now }

/-- `CYCLE_TIME = 10` seconds (line 36). -/
def CYCLE_TIME : ℚ := 10

/-- One iteration of the `while True` loop of `PhotoDisplay.run` (lines
583–602) with `ENABLE_DITHERING = True`: update the dither frame every
iteration, then change images only when `current_time - self.last_image_time
>= CYCLE_TIME`. -/
def run_step (numUrls : ℕ) (fetch : ℕ → Option (Bitmap × Palette)) (now : ℚ)
    (s : PhotoState) : PhotoState :=
  let s1 := update_dither_frame s
  match s1.lastImageTime with
  | some t => if CYCLE_TIME ≤ now - t then change_image numUrls fetch now s1 else s1
  | none => s1

/-- Dimensions produced by PIL's `Image.crop(box)`: exactly the size of the
requested box (an empty box yields a 0-sized image, not an error). -/
def cropDims (left top right bottom : ℕ) : ℕ × ℕ := (right - left, bottom - top)

/-- Dimensions produced by PIL's `Image.resize(target_size, LANCZOS)`: the
resampler always returns an image of exactly the requested size.  Its
coefficient precomputation clamps the filter scale at 1 and clips the source
window to the source extent, so even a 0-sized source resamples (to a blank
image of the requested size) without raising. -/
def resizeDims (_src target : ℕ × ℕ) : ℕ × ℕ := target

/-- `LEDMatrixConverter.smart_crop_resize` (bmp_convert.py lines 40–61), at
the level of image dimensions, for a source of size `w × h` and a target of
size `tw × th`.  `none` models an uncaught Python exception: computing
`image.width / image.height` raises `ZeroDivisionError` when `h = 0`, and
`target_size[0] / target_size[1]` raises when `th = 0`. -/
def smart_crop_resize (w h tw th : ℕ) : Option (ℕ × ℕ) :=
  if h = 0 then none
  else if th = 0 then none
  else
    let img_ratio : ℚ := (w : ℚ) / (h : ℚ)
    let target_ratio : ℚ := (tw : ℚ) / (th : ℚ)
    let cropped : ℕ × ℕ :=
      if target_ratio < img_ratio then
        let new_width := ((h : ℚ) * target_ratio).floor.toNat
        let left := (w - new_width) / 2
        cropDims left 0 (left + new_width) h
      else if img_ratio < target_ratio then
        let new_height := ((w : ℚ) / target_ratio).floor.toNat
        let top := (h - new_height) / 2
        cropDims 0 top w (top + new_height)
      else (w, h)
    some (resizeDims cropped (tw, th))

/-!
## Bitmap codec

Modelled from the spec: the artifact serializer and deserializer themselves
are not in the repository sources — `save_palette_bmp` delegates encoding to
PIL's BMP writer and `display_image_from_data` delegates decoding to
`adafruit_imageload` — so the codec below follows §4.4/§6 of the spec: a
fixed header (magic, version, width `uint16`, height `uint16`, palette length
`uint16` in 2–256), then the palette table at 3 bytes per entry, then one
row-major index byte per pixel; decoding validates the magic and version and
rejects length mismatches, truncation, and indices outside the palette.
-/

/-- An in-memory decoded artifact: canvas dimensions, ordered RGB palette,
and the row-major index grid. -/
structure Artifact where
  width : ℕ
  height : ℕ
  palette : List (ℕ × ℕ × ℕ)
  indices : List ℕ
deriving DecidableEq, Repr

/-- First magic byte of the artifact header. -/
def magic0 : ℕ := 0x4C

/-- Second magic byte of the artifact header. -/
def magic1 : ℕ := 0x4D

/-- Format version byte. -/
def artifactVersion : ℕ := 1

/-- A 16-bit field, stored little-endian. -/
def encodeU16 (v : ℕ) : List ℕ := [v % 256, v / 256]

/-- The palette table: 3 bytes (R, G, B) per entry, in palette order. -/
def encodePaletteTable (p : List (ℕ × ℕ × ℕ)) : List ℕ :=
  p.flatMap fun t => [t.1, t.2.1, t.2.2]

/-- Modelled from the spec: serialize an artifact to its binary record
(§4.4). -/
def encodeArtifact (a : Artifact) : List ℕ :=
  magic0 :: magic1 :: artifactVersion ::
    (encodeU16 a.width ++ encodeU16 a.height ++ encodeU16 a.palette.length ++
      encodePaletteTable a.palette ++ a.indices)

/-- Split a byte list into consecutive RGB triples; fails when the length is
not a multiple of 3. -/
def parseTriples : List ℕ → Option (List (ℕ × ℕ × ℕ))
  | [] => some []
  | r :: g :: b :: rest => (parseTriples rest).map fun l => (r, g, b) :: l
  | _ => none

/-- Modelled from the spec: deserialize a binary record (§4.4), validating
the magic and version, that every header field is a byte, that the palette
length is in `[2, 256]`, that the byte count matches the header exactly, that
palette entries are bytes, and that every index is below the palette
length. -/
def decodeArtifact (bs : List ℕ) : Option Artifact :=
  match bs with
  | m0 :: m1 :: v :: w0 :: w1 :: h0 :: h1 :: n0 :: n1 :: body =>
    if m0 = magic0 ∧ m1 = magic1 ∧ v = artifactVersion ∧
        w0 < 256 ∧ w1 < 256 ∧ h0 < 256 ∧ h1 < 256 ∧ n0 < 256 ∧ n1 < 256 then
      let w := w0 + 256 * w1
      let h := h0 + 256 * h1
      let n := n0 + 256 * n1
      if 2 ≤ n ∧ n ≤ 256 ∧ body.length = 3 * n + w * h then
        match parseTriples (body.take (3 * n)) with
        | some pal =>
          let idx := body.drop (3 * n)
          if (∀ t ∈ pal, t.1 < 256 ∧ t.2.1 < 256 ∧ t.2.2 < 256) ∧
              (∀ i ∈ idx, i < n) then
            some ⟨w, h, pal, idx⟩
          else none
        | none => none
      else none
    else none
  | _ => none

/-- A valid in-memory artifact: 16-bit dimensions, palette length in
`[2, 256]`, byte-sized channel values, a full row-major index grid, and
in-range indices. -/
def ValidArtifact (a : Artifact) : Prop :=
  a.width < 65536 ∧ a.height < 65536 ∧
  2 ≤ a.palette.length ∧ a.palette.length ≤ 256 ∧
  (∀ t ∈ a.palette, t.1 < 256 ∧ t.2.1 < 256 ∧ t.2.2 < 256) ∧
  a.indices.length = a.width * a.height ∧
  (∀ i ∈ a.indices, i < a.palette.length)

instance (a : Artifact) : Decidable (ValidArtifact a) := by
  unfold ValidArtifact
  infer_instance

/-!
## Concrete inputs used by witnesses and counterexamples
-/

/-- A 1×1 bitmap whose only pixel carries palette index 0. -/
def exBitmap1 : Bitmap := ⟨1, 1, fun _ _ => 0⟩

/-- A full 256-entry palette (all black). -/
def exPal256 : Palette := List.replicate 256 0

/-- A two-colour palette. -/
def exPalSmall : Palette := [0x102030, 0xFFFFFF]

/-- A display state that has adopted `exBitmap1` with `exPalSmall`. -/
def exStateA : PhotoState :=
  ⟨0, some (exBitmap1, exPalSmall), some exPalSmall, .medium, 0, some 0, []⟩

/-- A 1×1 valid artifact with a two-entry palette. -/
def exArtifact : Artifact := ⟨1, 1, [(0, 0, 0), (255, 255, 255)], [1]⟩

/-- A fetch collaborator whose every request fails. -/
def fetchNone : ℕ → Option (Bitmap × Palette) := fun _ => none

/-!
## Helper lemmas
-/

lemma usageRule_eq_spec (c : ℚ) (p : Pattern) :
    usageRule c p =
      if c < 3/20 then Pattern.heavy
      else if 2/5 < c then Pattern.light else p := by
  unfold usageRule
  by_cases h1 : c < 3/20
  · by_cases hp : p = Pattern.heavy
    · subst hp
      simp [h1]
      linarith
    · simp [h1, hp]
  · by_cases h2 : 2/5 < c
    · by_cases hp : p = Pattern.light
      · subst hp
        simp [h1, h2]
      · simp [h1, h2, hp]
    · simp [h1, h2]

lemma encodePaletteTable_cons (t : ℕ × ℕ × ℕ) (p : List (ℕ × ℕ × ℕ)) :
    encodePaletteTable (t :: p) =
      t.1 :: t.2.1 :: t.2.2 :: encodePaletteTable p := by
  simp [encodePaletteTable]

lemma encodePaletteTable_length (p : List (ℕ × ℕ × ℕ)) :
    (encodePaletteTable p).length = 3 * p.length := by
  induction p with
  | nil => rfl
  | cons t rest ih => simp [encodePaletteTable_cons, ih]; omega

lemma parseTriples_encodePaletteTable (p : List (ℕ × ℕ × ℕ)) :
    parseTriples (encodePaletteTable p) = some p := by
  induction p with
  | nil => rfl
  | cons t rest ih =>
    rw [encodePaletteTable_cons]
    simp [parseTriples, ih]

lemma parseTriples_inv (p : List (ℕ × ℕ × ℕ)) : ∀ l : List ℕ,
    parseTriples l = some p → encodePaletteTable p = l ∧ l.length = 3 * p.length := by
  induction p with
  | nil =>
    intro l h
    rcases l with _ | ⟨r, _ | ⟨g, _ | ⟨b, rest⟩⟩⟩ <;>
      simp_all [parseTriples, encodePaletteTable]
  | cons t rest ih =>
    intro l h
    rcases l with _ | ⟨r, l1⟩
    · exact absurd h (by simp [parseTriples])
    rcases l1 with _ | ⟨g, l2⟩
    · exact absurd h (by simp [parseTriples])
    rcases l2 with _ | ⟨b, l3⟩
    · exact absurd h (by simp [parseTriples])
    simp only [parseTriples, Option.map_eq_some'] at h
    obtain ⟨q, hq, heq⟩ := h
    have ht : (r, g, b) = t := (List.cons.injEq _ _ _ _ ▸ heq).1
    have hrest : q = rest := (List.cons.injEq _ _ _ _ ▸ heq).2
    obtain ⟨h1, h2⟩ := ih l3 (hrest ▸ hq)
    subst ht
    constructor
    · rw [encodePaletteTable_cons, h1]
    · simp only [List.length_cons, h2]
      omega

lemma mem_keys_bumpCount (i j : ℕ) (l : List (ℕ × ℕ)) :
    j ∈ (bumpCount i l).map Prod.fst ↔ j ∈ l.map Prod.fst ∨ j = i := by
  induction l with
  | nil => simp [bumpCount]
  | cons t rest ih =>
    obtain ⟨k, c⟩ := t
    by_cases hik : i = k
    · subst hik
      simp [bumpCount]
      tauto
    · simp [bumpCount, hik, ih]
      tauto

lemma keys_bumpCount (i : ℕ) (l : List (ℕ × ℕ)) :
    (bumpCount i l).map Prod.fst =
      if i ∈ l.map Prod.fst then l.map Prod.fst else l.map Prod.fst ++ [i] := by
  induction l with
  | nil => simp [bumpCount]
  | cons t rest ih =>
    obtain ⟨k, c⟩ := t
    by_cases hik : i = k
    · subst hik
      simp [bumpCount]
    · by_cases hm : i ∈ rest.map Prod.fst
      · simp [bumpCount, hik, ih, hm, Ne.symm hik]
      · simp [bumpCount, hik, ih, hm, Ne.symm hik]

lemma keys_bumpCount_nodup (i : ℕ) (l : List (ℕ × ℕ))
    (h : (l.map Prod.fst).Nodup) : ((bumpCount i l).map Prod.fst).Nodup := by
  rw [keys_bumpCount]
  by_cases hm : i ∈ l.map Prod.fst
  · simpa [hm]
  · simp [hm, List.nodup_append, h]

lemma analyzeFold_found_mem (pal : Palette) (l : List ℕ) (acc : AnalyzeAcc)
    (j : ℕ) :
    j ∈ (l.foldl (analyzeStep pal) acc).palette_colors_found ↔
      j ∈ acc.palette_colors_found ∨ j ∈ l := by
  induction l generalizing acc with
  | nil => simp
  | cons x xs ih =>
    rw [List.foldl_cons, ih]
    simp [analyzeStep, List.mem_insert_iff]
    tauto

lemma analyzeFold_found_nodup (pal : Palette) (l : List ℕ) (acc : AnalyzeAcc)
    (h : acc.palette_colors_found.Nodup) :
    (l.foldl (analyzeStep pal) acc).palette_colors_found.Nodup := by
  induction l generalizing acc with
  | nil => exact h
  | cons x xs ih =>
    rw [List.foldl_cons]
    exact ih _ (h.insert)

lemma analyzeFold_keys_mem (pal : Palette) (l : List ℕ) (acc : AnalyzeAcc)
    (h : ∀ j, j ∈ acc.color_frequencies.map Prod.fst ↔
      j ∈ acc.palette_colors_found) (j : ℕ) :
    j ∈ (l.foldl (analyzeStep pal) acc).color_frequencies.map Prod.fst ↔
      j ∈ (l.foldl (analyzeStep pal) acc).palette_colors_found := by
  induction l generalizing acc with
  | nil => exact h j
  | cons x xs ih =>
    rw [List.foldl_cons]
    refine ih _ ?_
    intro j'
    simp only [analyzeStep, mem_keys_bumpCount, List.mem_insert_iff, h j']
    tauto

lemma analyzeFold_keys_nodup (pal : Palette) (l : List ℕ) (acc : AnalyzeAcc)
    (h : (acc.color_frequencies.map Prod.fst).Nodup) :
    ((l.foldl (analyzeStep pal) acc).color_frequencies.map Prod.fst).Nodup := by
  induction l generalizing acc with
  | nil => exact h
  | cons x xs ih =>
    rw [List.foldl_cons]
    exact ih _ (keys_bumpCount_nodup _ _ h)

lemma le_foldr_max (a : ℕ) (l : List ℕ) (h : a ∈ l) : a ≤ l.foldr max 0 := by
  induction l with
  | nil => cases h
  | cons b t ih =>
    rcases List.mem_cons.1 h with rfl | hmem
    · exact le_max_left _ _
    · exact (ih hmem).trans (le_max_right _ _)

lemma foldr_max_insert (x : ℕ) (l : List ℕ) :
    (l.insert x).foldr max 0 = max x (l.foldr max 0) := by
  by_cases hm : x ∈ l
  · rw [List.insert_of_mem hm, max_eq_right (le_foldr_max x l hm)]
  · rw [List.insert_of_not_mem hm, List.foldr_cons]

lemma analyzeFold_found_max (pal : Palette) (l : List ℕ) (acc : AnalyzeAcc) :
    (l.foldl (analyzeStep pal) acc).palette_colors_found.foldr max 0 =
      max (acc.palette_colors_found.foldr max 0) (l.foldr max 0) := by
  induction l generalizing acc with
  | nil => simp
  | cons x xs ih =>
    rw [List.foldl_cons, ih]
    simp only [analyzeStep, foldr_max_insert, List.foldr_cons]
    rw [max_assoc, max_left_comm]

lemma uniqueColors_eq_dedup (bm : Bitmap) (pal : Palette) (ss : ℕ) :
    uniqueColors bm pal ss = (sampledIndices bm ss).dedup.length := by
  unfold uniqueColors analyzeLoop
  set l := sampledIndices bm ss with hl
  have hkeys := analyzeFold_keys_nodup pal l ⟨[], [], []⟩ (by simp)
  have hfound := analyzeFold_found_nodup pal l ⟨[], [], []⟩ (by simp)
  have hperm1 : List.Perm
      ((l.foldl (analyzeStep pal) ⟨[], [], []⟩).color_frequencies.map Prod.fst)
      (l.foldl (analyzeStep pal) ⟨[], [], []⟩).palette_colors_found := by
    refine (List.perm_ext_iff_of_nodup hkeys hfound).2 ?_
    exact analyzeFold_keys_mem pal l ⟨[], [], []⟩ (by simp)
  have hperm2 : List.Perm
      (l.foldl (analyzeStep pal) ⟨[], [], []⟩).palette_colors_found l.dedup := by
    refine (List.perm_ext_iff_of_nodup hfound (List.nodup_dedup l)).2 ?_
    intro j
    rw [analyzeFold_found_mem, List.mem_dedup]
    simp
  calc (l.foldl (analyzeStep pal) ⟨[], [], []⟩).color_frequencies.length
      = ((l.foldl (analyzeStep pal) ⟨[], [], []⟩).color_frequencies.map
          Prod.fst).length := by rw [List.length_map]
    _ = l.dedup.length := (hperm1.trans hperm2).length_eq

lemma maxPaletteIndex_eq (bm : Bitmap) (pal : Palette) (ss : ℕ) :
    maxPaletteIndex bm pal ss = (sampledIndices bm ss).foldr max 0 := by
  unfold maxPaletteIndex analyzeLoop
  rw [analyzeFold_found_max]
  simp

lemma create_dithered_palette_nil (p : Pattern) (off : ℤ) :
    create_dithered_palette p [] off = [] := by
  simp [create_dithered_palette]

lemma create_dithered_palette_eq_nil_iff (p : Pattern) (pal : Palette)
    (off : ℤ) : create_dithered_palette p pal off = [] ↔ pal = [] := by
  unfold create_dithered_palette
  by_cases h : pal.length = 0
  · simp [h, List.length_eq_zero.1 h]
  · simp [h, List.map_eq_nil_iff, List.take_eq_nil_iff]

lemma update_dither_frame_untouched (s : PhotoState) :
    (update_dither_frame s).currentBitmapData = s.currentBitmapData ∧
    (update_dither_frame s).currentDitherPattern = s.currentDitherPattern ∧
    (update_dither_frame s).currentImageIndex = s.currentImageIndex ∧
    (update_dither_frame s).lastImageTime = s.lastImageTime ∧
    (update_dither_frame s).log = s.log := by
  unfold update_dither_frame
  rcases hd : s.currentBitmapData with _ | ⟨bm, pal⟩
  · simp [hd]
  rcases hg : s.currentGroup with _ | g
  · simp [hd, hg]
  simp only [hd, hg]
  split_ifs <;> simp

lemma update_dither_frame_iter_data (n : ℕ) (s : PhotoState) :
    (update_dither_frame^[n] s).currentBitmapData = s.currentBitmapData := by
  induction n generalizing s with
  | zero => rfl
  | succ k ih =>
    rw [Function.iterate_succ_apply]
    rw [ih, (update_dither_frame_untouched s).1]

lemma update_dither_frame_some (s : PhotoState) (bm : Bitmap) (pal : Palette)
    (g : Palette) (hd : s.currentBitmapData = some (bm, pal))
    (hg : s.currentGroup = some g) :
    update_dither_frame s =
      { s with
        ditherFrame := (s.ditherFrame + 1) % 4
        currentGroup :=
          if pal = [] then s.currentGroup
          else some (create_dithered_palette s.currentDitherPattern pal
            (if patternBit s.currentDitherPattern ((s.ditherFrame + 1) % 4)
              then 1 else -1)) } := by
  unfold update_dither_frame
  rw [hd, hg]
  by_cases hpal : pal = []
  · subst hpal
    simp [create_dithered_palette_nil, hg]
  · have hlen : (create_dithered_palette s.currentDitherPattern pal
        (if patternBit s.currentDitherPattern ((s.ditherFrame + 1) % 4)
          then 1 else -1)).length ≠ 0 := by
      intro h0
      exact hpal ((create_dithered_palette_eq_nil_iff _ _ _).1
        (List.length_eq_zero.1 h0))
    simp [hlen, hpal]

lemma tick_iter_adopt (s : PhotoState) (bm : Bitmap) (pal : Palette) (n : ℕ) :
    (update_dither_frame^[n] (display_image_from_data s bm pal)).ditherFrame =
      n % 4 ∧
    (update_dither_frame^[n]
      (display_image_from_data s bm pal)).currentBitmapData = some (bm, pal) ∧
    (update_dither_frame^[n]
      (display_image_from_data s bm pal)).currentDitherPattern =
      analyze_color_range bm pal ∧
    (update_dither_frame^[n] (display_image_from_data s bm pal)).currentGroup =
      some (if n = 0 then pal
        else create_dithered_palette (analyze_color_range bm pal) pal
          (if patternBit (analyze_color_range bm pal) (n % 4) then 1 else -1)) := by
  induction n with
  | zero =>
    refine ⟨rfl, rfl, rfl, ?_⟩
    simp [display_image_from_data]
  | succ k ih =>
    obtain ⟨ihf, ihd, ihp, ihg⟩ := ih
    rw [Function.iterate_succ_apply']
    rw [update_dither_frame_some _ bm pal _ ihd ihg]
    refine ⟨?_, ?_, ?_, ?_⟩
    · simp only [ihf]
      omega
    · exact ihd
    · exact ihp
    · by_cases hpal : pal = []
      · subst hpal
        simp [ihg, create_dithered_palette_nil]
      · have hmod : (k % 4 + 1) % 4 = (k + 1) % 4 := by omega
        simp only [if_neg hpal, ihp, ihf, hmod, Nat.succ_ne_zero, if_false]

lemma decode_encode_artifact (a : Artifact) (h : ValidArtifact a) :
    decodeArtifact (encodeArtifact a) = some a := by
  obtain ⟨hw, hh, hn2, hn256, hpal, hlen, hbound⟩ := h
  have h256 : (0 : ℕ) < 256 := by norm_num
  unfold encodeArtifact decodeArtifact encodeU16
  simp only [List.cons_append, List.nil_append]
  rw [if_pos]
  · rw [Nat.mod_add_div a.width 256, Nat.mod_add_div a.height 256,
      Nat.mod_add_div a.palette.length 256]
    rw [if_pos]
    · rw [show 3 * a.palette.length = (encodePaletteTable a.palette).length from
        (encodePaletteTable_length a.palette).symm]
      rw [List.take_left, parseTriples_encodePaletteTable, List.drop_left]
      simp [hpal, hbound]
      exact ⟨fun x y z hm => hpal (x, y, z) hm, hbound⟩
    · refine ⟨hn2, hn256, ?_⟩
      rw [List.length_append, encodePaletteTable_length, hlen]
  · refine ⟨by norm_num, by norm_num, by norm_num, ?_, ?_, ?_, ?_, ?_, ?_⟩
    · exact Nat.mod_lt _ h256
    · exact (Nat.div_lt_iff_lt_mul h256).2 hw
    · exact Nat.mod_lt _ h256
    · exact (Nat.div_lt_iff_lt_mul h256).2 hh
    · exact Nat.mod_lt _ h256
    · exact (Nat.div_lt_iff_lt_mul h256).2 (lt_of_le_of_lt hn256 (by norm_num))

lemma encode_decode_artifact (bs : List ℕ) (a : Artifact)
    (h : decodeArtifact bs = some a) : encodeArtifact a = bs := by
  rcases bs with _ | ⟨m0, _ | ⟨m1, _ | ⟨v, _ | ⟨w0, _ | ⟨w1, _ | ⟨h0, _ |
    ⟨h1, _ | ⟨n0, _ | ⟨n1, body⟩⟩⟩⟩⟩⟩⟩⟩⟩
  · simp [decodeArtifact] at h
  · simp [decodeArtifact] at h
  · simp [decodeArtifact] at h
  · simp [decodeArtifact] at h
  · simp [decodeArtifact] at h
  · simp [decodeArtifact] at h
  · simp [decodeArtifact] at h
  · simp [decodeArtifact] at h
  · simp [decodeArtifact] at h
  simp only [decodeArtifact] at h
  by_cases hc1 : m0 = magic0 ∧ m1 = magic1 ∧ v = artifactVersion ∧
      w0 < 256 ∧ w1 < 256 ∧ h0 < 256 ∧ h1 < 256 ∧ n0 < 256 ∧ n1 < 256
  swap
  · rw [if_neg hc1] at h; exact absurd h (by simp)
  rw [if_pos hc1] at h
  obtain ⟨hm0, hm1, hv, hw0, hw1, hh0, hh1, hn0, hn1⟩ := hc1
  by_cases hc2 : 2 ≤ n0 + 256 * n1 ∧ n0 + 256 * n1 ≤ 256 ∧
      body.length = 3 * (n0 + 256 * n1) + (w0 + 256 * w1) * (h0 + 256 * h1)
  swap
  · rw [if_neg hc2] at h; exact absurd h (by simp)
  rw [if_pos hc2] at h
  obtain ⟨hn2, hn256, hblen⟩ := hc2
  rcases hp : parseTriples (body.take (3 * (n0 + 256 * n1))) with _ | pal
  · simp only [hp] at h
    exact Option.noConfusion h
  simp only [hp] at h
  by_cases hc3 : (∀ t ∈ pal, t.1 < 256 ∧ t.2.1 < 256 ∧ t.2.2 < 256) ∧
      (∀ i ∈ body.drop (3 * (n0 + 256 * n1)), i < n0 + 256 * n1)
  swap
  · rw [if_neg hc3] at h; exact absurd h (by simp)
  rw [if_pos hc3] at h
  have ha : a = ⟨w0 + 256 * w1, h0 + 256 * h1, pal, body.drop (3 * (n0 + 256 * n1))⟩ :=
    (Option.some.inj h).symm
  obtain ⟨htab, htablen⟩ := parseTriples_inv pal _ hp
  have hplen : pal.length = n0 + 256 * n1 := by
    have htake : (body.take (3 * (n0 + 256 * n1))).length = 3 * (n0 + 256 * n1) := by
      rw [List.length_take]
      omega
    rw [htake] at htablen
    omega
  subst ha
  unfold encodeArtifact encodeU16
  simp only [hm0, hm1, hv]
  have hwmod : (w0 + 256 * w1) % 256 = w0 := by omega
  have hwdiv : (w0 + 256 * w1) / 256 = w1 := by omega
  have hhmod : (h0 + 256 * h1) % 256 = h0 := by omega
  have hhdiv : (h0 + 256 * h1) / 256 = h1 := by omega
  have hnmod : (n0 + 256 * n1) % 256 = n0 := by omega
  have hndiv : (n0 + 256 * n1) / 256 = n1 := by omega
  simp only [hplen, hwmod, hwdiv, hhmod, hhdiv, hnmod, hndiv, htab,
    List.cons_append, List.nil_append, List.take_append_drop]

lemma clampChannel_nonneg (v : ℤ) : 0 ≤ clampChannel v := le_max_left 0 _

lemma clampChannel_le (v : ℤ) : clampChannel v ≤ 255 :=
  max_le (by norm_num) (min_le_left _ _)

/-!
## Claim theorems
-/

/-- C1: Bitmap Codec round-trip — decoding any well-formed binary artifact
and re-encoding reproduces the record byte-for-byte, and encoding any valid
in-memory bitmap+palette artifact and decoding it back reproduces it exactly,
with identical palette entries and index grid. -/
theorem bitmap_codec_round_trip :
    (∀ bs a, decodeArtifact bs = some a → encodeArtifact a = bs) ∧
    (∀ a, ValidArtifact a → decodeArtifact (encodeArtifact a) = some a) :=
  ⟨encode_decode_artifact, decode_encode_artifact⟩

/-- Witness for C1 at a concrete 1×1 artifact with a two-entry palette. -/
theorem bitmap_codec_round_trip_witness :
    ValidArtifact exArtifact ∧
    decodeArtifact (encodeArtifact exArtifact) = some exArtifact :=
  ⟨by decide, bitmap_codec_round_trip.2 exArtifact (by decide)⟩

/-- C2: for every fixed triple of sample statistics, the classification
computed by `analyze_color_range` is the deterministic priority-ordered rule
chain of the spec: brightness range first, then the colour-usage ratio
overrides, then the distinct-colour count overrides. -/
theorem classification_matches_priority_rules (br cu : ℚ) (uc : ℕ) :
    selectPattern br cu uc = specClassification br cu uc := by
  unfold selectPattern specClassification
  rw [usageRule_eq_spec]
  rfl

set_option maxRecDepth 40000 in
/-- C3 counterexample: on a 1×1 bitmap using index 0 of a 256-entry palette,
the colour-usage statistic is 1/50 (distinct count over the probed estimate
`min(256, maxIndex+50)`), not 1/256 (distinct count over the palette size),
refuting the claim that it equals distinct/paletteSize. -/
theorem color_usage_not_palette_size_cex :
    colorUsageStat exBitmap1 exPal256 ≠
      (uniqueColors exBitmap1 exPal256 : ℚ) / (exPal256.length : ℚ) := by
  have h1 : sampledIndices exBitmap1 100 = [0] := by decide
  have h2 : uniqueColors exBitmap1 exPal256 = 1 := by
    rw [uniqueColors_eq_dedup, h1]
    decide
  have h3 : estimatedPaletteSize exBitmap1 exPal256 = 50 := by
    unfold estimatedPaletteSize
    rw [maxPaletteIndex_eq, h1]
    decide
  have h4 : exPal256.length = 256 := by decide
  unfold colorUsageStat
  rw [h2, h3, h4]
  norm_num

/-- C3 amended: the colour-usage statistic equals the number of distinct
sampled indices divided by the estimated palette size
`min(256, maxSampledIndex + 50)` — it does not depend on the supplied
palette's length at all. -/
theorem color_usage_uses_estimated_size (bm : Bitmap) (pal : Palette) :
    colorUsageStat bm pal =
      ((sampledIndices bm 100).dedup.length : ℚ) /
        ((min 256 ((sampledIndices bm 100).foldr max 0 + 50) : ℕ) : ℚ) := by
  unfold colorUsageStat
  have hpos : 0 < estimatedPaletteSize bm pal 100 := by
    unfold estimatedPaletteSize
    exact lt_min_iff.2 ⟨by norm_num, by omega⟩
  rw [if_pos hpos, uniqueColors_eq_dedup]
  unfold estimatedPaletteSize
  rw [maxPaletteIndex_eq]

/-- C4: the dither frame counter is reset to 0 by adoption, advanced by
exactly one modulo 4 by every tick with adopted data, kept inside `[0, 4)` by
every tick, and after `n` ticks from adoption equals `n % 4` — the
0→1→2→3→0 cycle with period exactly 4. -/
theorem dither_frame_counter_cycles (s : PhotoState) (bm : Bitmap)
    (pal : Palette) (d : Bitmap × Palette) (g : Palette) (n : ℕ) :
    (display_image_from_data s bm pal).ditherFrame = 0 ∧
    (s.currentBitmapData = some d → s.currentGroup = some g →
      (update_dither_frame s).ditherFrame = (s.ditherFrame + 1) % 4) ∧
    (s.ditherFrame < 4 → (update_dither_frame s).ditherFrame < 4) ∧
    (update_dither_frame^[n] (display_image_from_data s bm pal)).ditherFrame =
      n % 4 := by
  refine ⟨rfl, ?_, ?_, (tick_iter_adopt s bm pal n).1⟩
  · intro hd hg
    obtain ⟨b0, p0⟩ := d
    rw [update_dither_frame_some s b0 p0 g hd hg]
  · intro hlt
    unfold update_dither_frame
    rcases hd : s.currentBitmapData with _ | ⟨b0, p0⟩
    · simpa [hd]
    rcases hg : s.currentGroup with _ | g0
    · simpa [hd, hg]
    simp only [hd, hg]
    split_ifs <;> simp <;> omega

/-- Witness for C4 at a concrete adopted state. -/
theorem dither_frame_counter_cycles_witness :
    exStateA.currentBitmapData = some (exBitmap1, exPalSmall) ∧
    exStateA.currentGroup = some exPalSmall ∧
    exStateA.ditherFrame < 4 ∧
    (update_dither_frame exStateA).ditherFrame =
      (exStateA.ditherFrame + 1) % 4 ∧
    (update_dither_frame exStateA).ditherFrame < 4 := by
  refine ⟨rfl, rfl, by decide, ?_, ?_⟩
  · exact (dither_frame_counter_cycles exStateA exBitmap1 exPalSmall
      (exBitmap1, exPalSmall) exPalSmall 0).2.1 rfl rfl
  · exact (dither_frame_counter_cycles exStateA exBitmap1 exPalSmall
      (exBitmap1, exPalSmall) exPalSmall 0).2.2.1 (by decide)

/-- C5: after any positive number of ticks since adoption, the installed
pixel shader is derived from the original adopted base palette by the current
profile and the current phase alone — never from a previously derived
palette — and the adopted base pair itself is still in place, so repeated
ticks cannot accumulate drift. -/
theorem dither_palette_from_base_no_drift (s : PhotoState) (bm : Bitmap)
    (pal : Palette) (n : ℕ) (hn : 1 ≤ n) :
    (update_dither_frame^[n] (display_image_from_data s bm pal)).currentGroup =
      some (create_dithered_palette (analyze_color_range bm pal) pal
        (if patternBit (analyze_color_range bm pal) (n % 4) then 1 else -1)) ∧
    (update_dither_frame^[n]
      (display_image_from_data s bm pal)).currentBitmapData = some (bm, pal) := by
  obtain ⟨_, hd, _, hg⟩ := tick_iter_adopt s bm pal n
  refine ⟨?_, hd⟩
  rw [hg, if_neg (by omega : ¬ n = 0)]

/-- Witness for C5: two ticks after adopting a concrete bitmap/palette. -/
theorem dither_palette_from_base_no_drift_witness :
    (1 : ℕ) ≤ 2 ∧
    (update_dither_frame^[2]
        (display_image_from_data exStateA exBitmap1 exPalSmall)).currentGroup =
      some (create_dithered_palette (analyze_color_range exBitmap1 exPalSmall)
        exPalSmall
        (if patternBit (analyze_color_range exBitmap1 exPalSmall) (2 % 4)
          then 1 else -1)) :=
  ⟨by norm_num, (dither_palette_from_base_no_drift exStateA exBitmap1
    exPalSmall 2 (by norm_num)).1⟩

/-- C6: for any palette with between 2 and 256 entries and a tick's signed
unit brightness offset, every entry of the derived palette is assembled from
the three channels of some base entry, each lying within `[0, 255]` after the
scaled signed offset and the clamp. -/
theorem dithered_palette_channels_in_range (p : Pattern) (pal : Palette)
    (off : ℤ) (c : ℕ) (h2 : 2 ≤ pal.length) (h256 : pal.length ≤ 256)
    (_hoff : off = 1 ∨ off = -1)
    (hc : c ∈ create_dithered_palette p pal off) :
    ∃ c0 ∈ pal,
      0 ≤ clampChannel ((channelR c0 : ℤ) + off * ditherScale p) ∧
      clampChannel ((channelR c0 : ℤ) + off * ditherScale p) ≤ 255 ∧
      0 ≤ clampChannel ((channelG c0 : ℤ) + off * ditherScale p) ∧
      clampChannel ((channelG c0 : ℤ) + off * ditherScale p) ≤ 255 ∧
      0 ≤ clampChannel ((channelB c0 : ℤ) + off * ditherScale p) ∧
      clampChannel ((channelB c0 : ℤ) + off * ditherScale p) ≤ 255 ∧
      c = ((clampChannel ((channelR c0 : ℤ) + off * ditherScale p)).toNat <<< 16) |||
          ((clampChannel ((channelG c0 : ℤ) + off * ditherScale p)).toNat <<< 8) |||
          (clampChannel ((channelB c0 : ℤ) + off * ditherScale p)).toNat := by
  unfold create_dithered_palette at hc
  rw [if_neg (by omega)] at hc
  obtain ⟨c0, hc0, rfl⟩ := List.mem_map.1 hc
  exact ⟨c0, List.mem_of_mem_take hc0, clampChannel_nonneg _, clampChannel_le _,
    clampChannel_nonneg _, clampChannel_le _, clampChannel_nonneg _,
    clampChannel_le _, rfl⟩

/-- Witness for C6 on the first derived entry of a concrete two-entry
palette with the light profile and offset +1. -/
theorem dithered_palette_channels_in_range_witness :
    2 ≤ exPalSmall.length ∧
    ∃ c0 ∈ exPalSmall,
      0 ≤ clampChannel ((channelR c0 : ℤ) + 1 * ditherScale Pattern.light) ∧
      clampChannel ((channelR c0 : ℤ) + 1 * ditherScale Pattern.light) ≤ 255 ∧
      0 ≤ clampChannel ((channelG c0 : ℤ) + 1 * ditherScale Pattern.light) ∧
      clampChannel ((channelG c0 : ℤ) + 1 * ditherScale Pattern.light) ≤ 255 ∧
      0 ≤ clampChannel ((channelB c0 : ℤ) + 1 * ditherScale Pattern.light) ∧
      clampChannel ((channelB c0 : ℤ) + 1 * ditherScale Pattern.light) ≤ 255 ∧
      ditherColor (1 * ditherScale Pattern.light) 0x102030 =
        ((clampChannel ((channelR c0 : ℤ) + 1 * ditherScale Pattern.light)).toNat <<< 16) |||
        ((clampChannel ((channelG c0 : ℤ) + 1 * ditherScale Pattern.light)).toNat <<< 8) |||
        (clampChannel ((channelB c0 : ℤ) + 1 * ditherScale Pattern.light)).toNat :=
  ⟨by decide, dithered_palette_channels_in_range Pattern.light exPalSmall 1
    (ditherColor (1 * ditherScale Pattern.light) 0x102030) (by decide)
    (by decide) (Or.inl rfl) (by decide)⟩

/-- C7: a dither tick never writes the index grid — after any number of
ticks the adopted bitmap+palette data is exactly what it was at adoption,
and a tick changes nothing but the frame counter and the installed pixel
shader. -/
theorem dither_tick_never_writes_bitmap (s : PhotoState) (n : ℕ) :
    (update_dither_frame^[n] s).currentBitmapData = s.currentBitmapData ∧
    (update_dither_frame s).currentDitherPattern = s.currentDitherPattern ∧
    (update_dither_frame s).currentImageIndex = s.currentImageIndex ∧
    (update_dither_frame s).lastImageTime = s.lastImageTime ∧
    (update_dither_frame s).log = s.log :=
  ⟨update_dither_frame_iter_data n s, (update_dither_frame_untouched s).2.1,
    (update_dither_frame_untouched s).2.2.1,
    (update_dither_frame_untouched s).2.2.2.1,
    (update_dither_frame_untouched s).2.2.2.2⟩

/-- C8 counterexample: a zero-width source with positive height does not
fail — the empty centre crop is resampled to a full canvas-size image, so
`smart_crop_resize` succeeds, refuting the claim that zero width fails with
`InvalidImage`. -/
theorem zero_width_source_does_not_fail_cex :
    smart_crop_resize 0 13 64 64 = some (64, 64) := by
  decide

/-- C8 amended: for every source with positive height — any width, zero
included — the normalizer output dimensions exactly equal the configured
canvas dimensions, and a zero-height source fails (the aspect-ratio division
raises). -/
theorem geometry_normalizer_output_dims (w h tw th : ℕ) (hh : 0 < h)
    (hth : 0 < th) :
    smart_crop_resize w h tw th = some (tw, th) ∧
    smart_crop_resize w 0 tw th = none := by
  constructor
  · unfold smart_crop_resize
    rw [if_neg (by omega), if_neg (by omega)]
    rfl
  · rfl

/-- Witness for C8 (amended) at a concrete 120×80 source and 64×64 canvas. -/
theorem geometry_normalizer_output_dims_witness :
    (0 : ℕ) < 80 ∧ smart_crop_resize 120 80 64 64 = some (64, 64) :=
  ⟨by norm_num,
    (geometry_normalizer_output_dims 120 80 64 64 (by norm_num) (by norm_num)).1⟩

/-- C9: when the fetch of a cycle fails, the previously displayed bitmap,
pixel shader, profile, and frame counter stay untouched, the error is
logged, the cycle timestamp is re-armed, and the loop retries only at the
next cycle boundary: before `CYCLE_TIME` elapses a loop step changes neither
the image index nor the displayed data, and once it elapses the next change
is attempted. -/
theorem fetch_failure_preserves_display (s : PhotoState) (numUrls : ℕ)
    (fetch : ℕ → Option (Bitmap × Palette)) (now t : ℚ)
    (hfail : fetch s.currentImageIndex = none) :
    ((change_image numUrls fetch now s).currentBitmapData =
        s.currentBitmapData ∧
      (change_image numUrls fetch now s).currentGroup = s.currentGroup ∧
      (change_image numUrls fetch now s).currentDitherPattern =
        s.currentDitherPattern ∧
      (change_image numUrls fetch now s).ditherFrame = s.ditherFrame ∧
      (change_image numUrls fetch now s).log =
        s.log ++ ["Error downloading image"] ∧
      (change_image numUrls fetch now s).lastImageTime = some now) ∧
    (s.lastImageTime = some t → now - t < CYCLE_TIME →
      (run_step numUrls fetch now s).currentImageIndex =
        s.currentImageIndex ∧
      (run_step numUrls fetch now s).lastImageTime = some t ∧
      (run_step numUrls fetch now s).currentBitmapData =
        s.currentBitmapData) ∧
    (s.lastImageTime = some t → CYCLE_TIME ≤ now - t →
      (run_step numUrls fetch now s).lastImageTime = some now) := by
  refine ⟨?_, ?_, ?_⟩
  · simp [change_image, download_and_display_image, hfail]
  · intro ht hlt
    have hu := update_dither_frame_untouched s
    unfold run_step
    simp only [hu.2.2.2.1, ht]
    rw [if_neg (not_le.2 hlt)]
    exact ⟨hu.2.2.1, hu.2.2.2.1.trans ht, hu.1⟩
  · intro ht hge
    have hu := update_dither_frame_untouched s
    unfold run_step
    simp only [hu.2.2.2.1, ht]
    rw [if_pos hge]
    rfl

/-- Witness for C9: a failing fetch at a concrete state, checked both for
display preservation and for logging. -/
theorem fetch_failure_preserves_display_witness :
    fetchNone exStateA.currentImageIndex = none ∧
    (change_image 4 fetchNone 5 exStateA).currentBitmapData =
      exStateA.currentBitmapData ∧
    (change_image 4 fetchNone 5 exStateA).log =
      exStateA.log ++ ["Error downloading image"] :=
  ⟨rfl, (fetch_failure_preserves_display exStateA 4 fetchNone 5 0 rfl).1.1,
    (fetch_failure_preserves_display exStateA 4 fetchNone 5 0
      rfl).1.2.2.2.2.1⟩

/-- C10: `change_image` unconditionally advances the image index to
`(previous + 1) % len` and records the change time whether or not the fetch
succeeded, so with at least two URLs a failing reference is skipped — a
different index is fetched — on the following cycle rather than retried. -/
theorem change_image_always_advances (s : PhotoState) (numUrls : ℕ)
    (fetch : ℕ → Option (Bitmap × Palette)) (now : ℚ) :
    (change_image numUrls fetch now s).currentImageIndex =
      (s.currentImageIndex + 1) % numUrls ∧
    (change_image numUrls fetch now s).lastImageTime = some now ∧
    (2 ≤ numUrls → s.currentImageIndex < numUrls →
      (s.currentImageIndex + 1) % numUrls ≠ s.currentImageIndex) := by
  refine ⟨rfl, rfl, ?_⟩
  intro h2 hlt heq
  rcases Nat.lt_or_ge (s.currentImageIndex + 1) numUrls with hlt1 | hge1
  · rw [Nat.mod_eq_of_lt hlt1] at heq
    omega
  · have h1 : s.currentImageIndex + 1 = numUrls := by omega
    rw [h1, Nat.mod_self] at heq
    omega

/-- Witness for C10 at a concrete state with a 4-entry URL list and a
failing fetch. -/
theorem change_image_always_advances_witness :
    (change_image 4 fetchNone 5 exStateA).currentImageIndex =
      (exStateA.currentImageIndex + 1) % 4 ∧
    2 ≤ 4 ∧ exStateA.currentImageIndex < 4 ∧
    (exStateA.currentImageIndex + 1) % 4 ≠ exStateA.currentImageIndex := by
  refine ⟨(change_image_always_advances exStateA 4 fetchNone 5).1,
    by norm_num, by decide, ?_⟩
  exact (change_image_always_advances exStateA 4 fetchNone 5).2.2
    (by norm_num) (by decide)

end MatrixPortal
